import Mathlib

set_option maxHeartbeats 1000000

/-!
Verification of the claude-sandbox launcher.

This file is a shallow embedding, in Lean 4, of the pure decision logic of
the claude-sandbox command-line launcher (modules `args.py`, `cli.py`,
`docker.py`, `system.py`), together with theorems settling the published
claims about its behaviour.

Modelling conventions:
* Python lists become Lean `List`s, Python `str` becomes `String`,
  Python `int` becomes `Int` (arbitrary precision in both languages).
* Fallible code returns `Except`.
* Ambient reads (environment variables) and results of external processes
  are threaded in as explicit arguments.
* Behaviour of Python library routines that the source calls
  (`int(...)`, `str.strip`, `argparse.ArgumentParser.parse_known_args`)
  is embedded for the configuration the source actually uses, restricted
  to ASCII strings (CPython additionally accepts non-ASCII decimal digits
  and Unicode whitespace; those code points are outside the model).
-/

namespace ClaudeSandbox

/-- Decidable equality for `Except`, so that concrete runs of the embedded
functions can be checked by `decide`. -/
instance {ε α : Type} [DecidableEq ε] [DecidableEq α] :
    DecidableEq (Except ε α) := fun x y =>
  match x, y with
  | Except.ok a, Except.ok b =>
    if h : a = b then Decidable.isTrue (congrArg Except.ok h)
    else Decidable.isFalse (fun hc => h (Except.ok.inj hc))
  | Except.ok _, Except.error _ =>
    Decidable.isFalse (fun hc => Except.noConfusion hc)
  | Except.error _, Except.ok _ =>
    Decidable.isFalse (fun hc => Except.noConfusion hc)
  | Except.error e, Except.error f =>
    if h : e = f then Decidable.isTrue (congrArg Except.error h)
    else Decidable.isFalse (fun hc => h (Except.error.inj hc))

/-- Python truthiness of an `Optional[str]` value: `None` and the empty
string are falsy, every other string is truthy. -/
def truthyOpt : Option String → Bool
  | none => false
  | some s => s != ""

/-- Python `x or y` for strings: yields `y` when `x` is the empty string. -/
def pyOrStr (x y : String) : String :=
  if x = "" then y else x

/-- Python `str(x)` on an `Optional[str]`: `None` prints as the four
characters `None`. -/
def pyStr : Option String → String
  | none => "None"
  | some s => s

/-- ASCII whitespace stripped by Python `str.strip()` and by `int(str)`. -/
def isPySpace (c : Char) : Bool :=
  c == ' ' || c == '\t' || c == '\n' || c == '\r' || c == '\x0b' || c == '\x0c'

/-- Strip leading and trailing Python whitespace from a character list. -/
def pyStripChars (l : List Char) : List Char :=
  ((l.dropWhile isPySpace).reverse.dropWhile isPySpace).reverse

/-- Python `str.strip()` (ASCII fragment). -/
def pyStrip (s : String) : String :=
  String.mk (pyStripChars s.data)

/-- Python `s.startswith("-")`: the first character is the flag-prefix
character `-`. -/
def startsWithDash (s : String) : Bool :=
  match s.data with
  | [] => false
  | c :: _ => c == '-'

/-- Python `s.startswith("--")`: the first two characters are `--`. -/
def startsWithDashDash (s : String) : Bool :=
  match s.data with
  | '-' :: '-' :: _ => true
  | _ => false

/-- Continue reading a base-10 digit string after at least one digit has been
read, with `acc` the value so far.  A single underscore is permitted between
two digits (CPython PEP 515); a doubled, leading, or trailing underscore is
rejected, as is any non-digit. -/
def parseRest : List Char → Nat → Option Nat
  | [], acc => some acc
  | '_' :: rest, acc =>
    match rest with
    | [] => none
    | c :: rest2 =>
      if c.isDigit then parseRest rest2 (acc * 10 + (c.toNat - 48)) else none
  | c :: rest, acc =>
    if c.isDigit then parseRest rest (acc * 10 + (c.toNat - 48)) else none

/-- Read a nonempty base-10 digit string (underscore separators allowed
between digits) and return its value. -/
def parseUDigits : List Char → Option Nat
  | [] => none
  | c :: rest => if c.isDigit then parseRest rest (c.toNat - 48) else none

/-- CPython `int(s)` for base 10 on ASCII strings: surrounding whitespace is
stripped, one optional sign is allowed, then a nonempty digit string with
optional single underscores between digits. -/
def pythonIntOfString (s : String) : Option Int :=
  match pyStripChars s.data with
  | '+' :: rest => (parseUDigits rest).map (fun n => (n : Int))
  | '-' :: rest => (parseUDigits rest).map (fun n => -(n : Int))
  | l => (parseUDigits l).map (fun n => (n : Int))

/-- Error message used by `_validate_port` (`args.py` lines 33-41). -/
def portErrMsg (value : String) : String :=
  "Invalid port \x27" ++ value ++ "\x27. Must be 1-65535."

/-- `_validate_port` (`args.py` lines 33-41): convert the flag argument with
Python `int(...)`; a conversion failure or a value outside `[1, 65535]`
raises `argparse.ArgumentTypeError` with a message naming the literal. -/
def validate_port (value : String) : Except String Int :=
  match pythonIntOfString value with
  | none => Except.error (portErrMsg value)
  | some port =>
    if port < 1 ∨ port > 65535 then Except.error (portErrMsg value)
    else Except.ok port

/-- The recognized launcher flags (`known_flags` in
`_split_at_unknown_flag_or_double_dash`, `args.py` line 86). -/
def known_flags : List String := ["--github", "--detach", "-d", "--host-port"]

/-- First-occurrence split of `argv` at the literal token `--`
(`args.py` lines 89-91: `idx = argv.index("--"); argv[:idx], argv[idx+1:]`),
expressed recursively. -/
def splitAtDoubleDash : List String → List String × List String
  | [] => ([], [])
  | a :: rest =>
    if a = "--" then ([], rest)
    else
      let (l, p) := splitAtDoubleDash rest
      (a :: l, p)

/-- The scanning loop of `_split_at_unknown_flag_or_double_dash`
(`args.py` lines 93-118): walk the tokens left to right with a
`profile_found` flag; `--host-port` consumes the following token
unconditionally; an unrecognized `-`-prefixed token or a second positional
token starts the passthrough suffix. -/
def scanSplit : List String → Bool → List String × List String
  | [], _ => ([], [])
  | arg :: rest, profileFound =>
    if arg = "--host-port" then
      match rest with
      | [] => ([arg], [])
      | v :: rest2 =>
        let (l, p) := scanSplit rest2 profileFound
        (arg :: v :: l, p)
    else if startsWithDash arg then
      if arg ∈ known_flags then
        let (l, p) := scanSplit rest profileFound
        (arg :: l, p)
      else ([], arg :: rest)
    else if profileFound then ([], arg :: rest)
    else
      let (l, p) := scanSplit rest true
      (arg :: l, p)

/-- `_split_at_unknown_flag_or_double_dash` (`args.py` lines 81-118). -/
def split_at_unknown_flag_or_double_dash (argv : List String) :
    List String × List String :=
  if ("--") ∈ argv then splitAtDoubleDash argv
  else scanSplit argv false

/-- Count the positional tokens of a launcher-token list: tokens that do not
start with the flag-prefix character, not counting a token consumed as the
value of an immediately preceding `--host-port`. -/
def countPositionals : List String → Nat
  | [] => 0
  | arg :: rest =>
    if arg = "--host-port" then
      match rest with
      | [] => 0
      | _ :: rest2 => countPositionals rest2
    else if startsWithDash arg then countPositionals rest
    else 1 + countPositionals rest

/-- All option strings registered on the parser built by the flag-parsing
stage of `args.py` (lines 44-78): `--github`, `--detach` with alias `-d`
(both `store_true`), and `--host-port` (one argument, `append`). -/
def optionStrings : List String := ["--github", "--detach", "-d", "--host-port"]

/-- The long (double-dash) option strings of the parser. -/
def longOptionStrings : List String := ["--github", "--detach", "--host-port"]

/-- How argparse classifies one command-line token for this parser. -/
inductive TokKind where
  /-- A positional argument. -/
  | positional
  /-- Exactly one of the registered option strings (directly or as an
  unambiguous abbreviation without an explicit argument). -/
  | exact (o : String)
  /-- An option string with an explicit argument (`--opt=value`, or a
  value glued to a single-dash option). -/
  | withArg (o v : String)
  /-- An abbreviation matching several option strings (fatal usage error). -/
  | ambiguous
  /-- An unrecognized option-like token (collected as an extra by
  `parse_known_args`). -/
  | unknown
deriving Repr, DecidableEq

/-- Split a character list at its first `=`, as CPython
`arg_string.split("=", 1)` does when matching `--opt=value` forms. -/
def eqSplit (l : List Char) : Option (List Char × List Char) :=
  let pre := l.takeWhile (fun c => c != '=')
  if pre.length = l.length then none
  else some (pre, l.drop (pre.length + 1))

/-- CPython argparse `_negative_number_matcher`: `-` followed by a nonempty
digit string, or `-`, optional digits, `.`, and a nonempty digit string. -/
def isNegativeNumber (t : String) : Bool :=
  match t.data with
  | '-' :: rest =>
    (decide (rest ≠ []) && rest.all Char.isDigit) ||
      (let intPart := rest.takeWhile Char.isDigit
       match rest.drop intPart.length with
       | '.' :: frac => decide (frac ≠ []) && frac.all Char.isDigit
       | _ => false)
  | _ => false

/-- CPython argparse `_get_option_tuples` for a double-dash token that is not
an exact option string: every registered option string having the token
(or its part before `=`) as a prefix is a candidate. -/
def doubleDashMatches (t : String) : List TokKind :=
  match eqSplit t.data with
  | some (k, v) =>
    optionStrings.filterMap (fun o =>
      if (String.mk k).isPrefixOf o then some (TokKind.withArg o (String.mk v))
      else none)
  | none =>
    optionStrings.filterMap (fun o =>
      if t.isPrefixOf o then some (TokKind.exact o) else none)

/-- CPython argparse `_get_option_tuples` for a single-dash token: its first
two characters may name a short option with the remainder as explicit
argument, and any option string having the whole token as a prefix also
matches. -/
def singleDashMatches (t : String) : List TokKind :=
  let sp := String.mk (t.data.take 2)
  let sarg := String.mk (t.data.drop 2)
  optionStrings.filterMap (fun o =>
    if o = sp then some (TokKind.withArg sp sarg)
    else if t.isPrefixOf o then some (TokKind.exact o) else none)

/-- CPython argparse `_parse_optional` for this parser: tokens without the
`-` prefix, the lone `-`, negative numbers (the parser has no digit-like
option strings), and tokens containing a space are positionals; exact option
strings, `--opt=value` forms, and unambiguous abbreviations name options;
everything else option-like is unknown. -/
def classify (t : String) : TokKind :=
  if ¬ startsWithDash t then TokKind.positional
  else if t ∈ optionStrings then TokKind.exact t
  else if t.length = 1 then TokKind.positional
  else
    let exactEq :=
      match eqSplit t.data with
      | some (k, v) =>
        if (String.mk k) ∈ optionStrings then
          some (TokKind.withArg (String.mk k) (String.mk v))
        else none
      | none => none
    match exactEq with
    | some r => r
    | none =>
      match (if startsWithDashDash t then doubleDashMatches t
             else singleDashMatches t) with
      | [r] => r
      | [] =>
        if isNegativeNumber t then TokKind.positional
        else if t.contains (' ') then TokKind.positional
        else TokKind.unknown
      | _ => TokKind.ambiguous

/-- A fatal parse failure: argparse prints a usage message and terminates
the process via `SystemExit`; its `error` method exits with status 2. -/
structure ParseFailure where
  exitCode : Nat
  message : String
deriving Repr, DecidableEq

/-- The argparse namespace accumulated while parsing launcher tokens
(destinations `enable_github`, `detach_mode`, `host_ports`, `profile` of
`args.py` lines 44-78).  `profile` is `none` until the single `nargs="?"`
positional is filled; its default `"default"` is applied on read. -/
structure ArgNamespace where
  enable_github : Bool := false
  detach_mode : Bool := false
  host_ports : List Int := []
  profile : Option String := none
deriving Repr, DecidableEq

/-- Prefix argparse puts in front of errors about `--host-port`. -/
def hostPortErr (detail : String) : String :=
  "argument --host-port: " ++ detail

/-- Record one extra (unconsumed) token in front of a parse outcome, as
`parse_known_args` does for unknown option-like tokens and surplus
positionals. -/
def consExtra (t : String) :
    Except ParseFailure (ArgNamespace × List String) →
      Except ParseFailure (ArgNamespace × List String)
  | Except.ok (n, extras) => Except.ok (n, t :: extras)
  | Except.error e => Except.error e

/-- CPython `ArgumentParser.parse_known_args` for the parser of `args.py`
(lines 44-78, `add_help=False`): scan tokens left to right; store-true flags
set their destinations; `--host-port` requires the next token to be
classified as a positional and converts it with `_validate_port` (a
conversion error or a missing argument is fatal, exit status 2); the first
positional fills `profile` and later positionals and unknown option-like
tokens are returned as extras in order.  The token `--` never reaches this
function: `parse_args` removes it beforehand. -/
def parse_known_args : List String → ArgNamespace →
    Except ParseFailure (ArgNamespace × List String)
  | [], ns => Except.ok (ns, [])
  | t :: rest, ns =>
    match classify t with
    | TokKind.positional =>
      match ns.profile with
      | some _ => consExtra t (parse_known_args rest ns)
      | none => parse_known_args rest { ns with profile := some t }
    | TokKind.exact o =>
      if o = "--github" then
        parse_known_args rest { ns with enable_github := true }
      else if o = "--detach" ∨ o = "-d" then
        parse_known_args rest { ns with detach_mode := true }
      else
        match rest with
        | [] => Except.error ⟨2, hostPortErr ("expected one argument")⟩
        | v :: rest2 =>
          match classify v with
          | TokKind.positional =>
            match validate_port v with
            | Except.error msg => Except.error ⟨2, hostPortErr msg⟩
            | Except.ok p =>
              parse_known_args rest2 { ns with host_ports := ns.host_ports ++ [p] }
          | _ => Except.error ⟨2, hostPortErr ("expected one argument")⟩
    | TokKind.withArg o v =>
      if o = "--host-port" then
        match validate_port v with
        | Except.error msg => Except.error ⟨2, hostPortErr msg⟩
        | Except.ok p =>
          parse_known_args rest { ns with host_ports := ns.host_ports ++ [p] }
      else Except.error ⟨2, "argument " ++ o ++ ": ignored explicit argument"⟩
    | TokKind.ambiguous =>
      Except.error ⟨2, "ambiguous option: " ++ t⟩
    | TokKind.unknown => consExtra t (parse_known_args rest ns)

/-- The `Args` dataclass of `args.py` (lines 7-30). -/
structure Args where
  profile : String := "default"
  enable_github : Bool := false
  detach_mode : Bool := false
  host_ports : List Int := []
  command : List String := []
deriving Repr, DecidableEq

/-- `Args.volume_name` (`args.py` lines 17-20). -/
def Args.volume_name (a : Args) : String :=
  "claude-sandbox-" ++ a.profile

/-- `Args.workspace_volume_name` (`args.py` lines 22-25). -/
def Args.workspace_volume_name (a : Args) : String :=
  "claude-sandbox-" ++ a.profile ++ "-workspace"

/-- `Args.container_name` (`args.py` lines 27-30). -/
def Args.container_name (a : Args) : String :=
  "claude-sandbox-" ++ a.profile

/-- `parse_args` (`args.py` lines 121-154): split the raw tokens at the
first `--` or unknown flag, run the flag parser on the launcher tokens,
prepend any extras it returns to the command tokens, and build `Args`
(`parsed.profile or "default"` and `parsed.host_ports or []` are Python
`or`; on lists of ports the latter is the identity). -/
def parse_args (argv : List String) : Except ParseFailure Args :=
  let pr := split_at_unknown_flag_or_double_dash argv
  match parse_known_args pr.1 {} with
  | Except.error e => Except.error e
  | Except.ok (parsed, remaining) =>
    Except.ok
      { profile := pyOrStr (parsed.profile.getD ("default")) ("default")
        enable_github := parsed.enable_github
        detach_mode := parsed.detach_mode
        host_ports := parsed.host_ports
        command := remaining ++ pr.2 }

/-- `IMAGE_NAME` (`cli.py` line 27). -/
def IMAGE_NAME : String := "claude-sandbox"

/-- Git identity snapshot returned by `get_git_config` (`system.py`
lines 142-161): either value may be absent. -/
structure GitConfig where
  user_name : Option String := none
  user_email : Option String := none
deriving Repr, DecidableEq

/-- Error message for a missing SSH agent socket (`system.py` lines 180-184). -/
def sshAgentMsg : String :=
  "SSH agent not running. Start it with:\n  eval $(ssh-agent -s)\n  ssh-add ~/.ssh/your_github_key"

/-- Error message for an unset `user.name` (`system.py` lines 187-190). -/
def gitNameMsg : String :=
  "git config user.name not set. Run: git config --global user.name \"Your Name\""

/-- Error message for an unset `user.email` (`system.py` lines 192-195). -/
def gitEmailMsg : String :=
  "git config user.email not set. Run: git config --global user.email \"you@example.com\""

/-- `validate_github_requirements` (`system.py` lines 164-197).  The
`SSH_AUTH_SOCK` environment read (`os.environ.get`) is threaded in as an
explicit argument; Python truthiness makes `None` and the empty string count
as missing.  All failing checks append their message, and validity is
`len(errors) == 0`. -/
def validate_github_requirements (ssh_auth_sock : Option String)
    (git_config : GitConfig) : Bool × List String :=
  let errors :=
    (if truthyOpt ssh_auth_sock then [] else [sshAgentMsg]) ++
    (if truthyOpt git_config.user_name then [] else [gitNameMsg]) ++
    (if truthyOpt git_config.user_email then [] else [gitEmailMsg])
  (errors.length == 0, errors)

/-- Outcome of one external `subprocess.run` call, with decoded stdout. -/
structure ProcResult where
  returncode : Int
  stdout : String
deriving Repr, DecidableEq

/-- `check_container_exists` (`docker.py` lines 53-64): the result of the
external `docker ps -a --format \x7b\x7b.Names\x7d\x7d` call is threaded in;
a non-zero listing exit status yields `False`, otherwise the name is looked
up among the newline-separated names of the stripped output. -/
def check_container_exists (container_name : String)
    (ps_result : ProcResult) : Bool :=
  if ps_result.returncode != 0 then false
  else ((pyStrip ps_result.stdout).splitOn ("\n")).contains container_name

/-- `build_docker_args` (`docker.py` lines 67-102). -/
def build_docker_args (container_name volume_name workspace_volume_name : String)
    (host_ports : List Int) (enable_github : Bool)
    (github_config : Option GitConfig) (api_key term : String) : List String :=
  let base := [
    "--rm",
    "--cap-add=NET_ADMIN",
    "--add-host=host.docker.internal:host-gateway",
    "-v", volume_name ++ ":/home/claude",
    "-v", workspace_volume_name ++ ":/workspace",
    "-e", "PULSE_SERVER=tcp:host.docker.internal:4713",
    "-e", "ANTHROPIC_API_KEY=" ++ api_key,
    "-e", "TERM=" ++ term,
    "-e", "HOST_PORTS=" ++ String.intercalate (" ") (host_ports.map toString),
    "--hostname", container_name,
    "--name", container_name]
  match enable_github, github_config with
  | true, some cfg =>
    base ++ [
      "-v", "/run/host-services/ssh-auth.sock:/run/host-services/ssh-auth.sock",
      "-e", "SSH_AUTH_SOCK=/run/host-services/ssh-auth.sock",
      "-e", "GIT_AUTHOR_NAME=" ++ pyStr cfg.user_name,
      "-e", "GIT_AUTHOR_EMAIL=" ++ pyStr cfg.user_email,
      "-e", "GIT_COMMITTER_NAME=" ++ pyStr cfg.user_name,
      "-e", "GIT_COMMITTER_EMAIL=" ++ pyStr cfg.user_email]
  | _, _ => base

/-- The container-engine invocation assembled by `run_sandbox`
(`cli.py` lines 114-138): in detached mode `docker run -d <dockerArgs>
IMAGE_NAME sleep infinity`, otherwise `docker run -it <dockerArgs>
IMAGE_NAME /bin/bash`.  `docker_args` is the list produced by
`build_docker_args`. -/
def run_sandbox_cmd (args : Args) (docker_args : List String) : List String :=
  if args.detach_mode then
    ["docker", "run", "-d"] ++ docker_args ++ [IMAGE_NAME, "sleep", "infinity"]
  else
    ["docker", "run", "-it"] ++ docker_args ++ [IMAGE_NAME, "/bin/bash"]

/-! ## Helper lemmas -/

theorem splitAtDoubleDash_cons_ne (a : String) (rest : List String) (ha : a ≠ "--") :
    splitAtDoubleDash (a :: rest) =
      (a :: (splitAtDoubleDash rest).1, (splitAtDoubleDash rest).2) := by
  cases hsp : splitAtDoubleDash rest with
  | mk l p => simp [splitAtDoubleDash, ha, hsp]

theorem splitAtDoubleDash_spec (argv : List String) (h : ("--") ∈ argv) :
    splitAtDoubleDash argv =
      (argv.takeWhile (fun t => t != "--"),
        (argv.dropWhile (fun t => t != "--")).drop 1) ∧
    ("--") ∉ (splitAtDoubleDash argv).1 ∧
    (splitAtDoubleDash argv).1 ++ ("--") :: (splitAtDoubleDash argv).2 = argv := by
  induction argv with
  | nil => cases h
  | cons a rest ih =>
    by_cases ha : a = "--"
    · subst ha
      simp [splitAtDoubleDash, List.takeWhile_cons, List.dropWhile_cons]
    · have hr : ("--") ∈ rest := by
        rcases List.mem_cons.mp h with h1 | h1
        · exact absurd h1.symm ha
        · exact h1
      obtain ⟨e1, e2, e3⟩ := ih hr
      have hc := splitAtDoubleDash_cons_ne a rest ha
      refine ⟨?_, ?_, ?_⟩
      · rw [hc, e1]
        simp [List.takeWhile_cons, List.dropWhile_cons, ha, bne_iff_ne]
      · rw [hc]
        simp only [List.mem_cons]
        rintro (h2 | h2)
        · exact ha h2.symm
        · exact e2 h2
      · rw [hc]
        simpa using e3

/-! ## Claim theorems -/

/-- C1: for every token sequence containing the literal token `--`, the
splitter splits at the first occurrence of `--`: the launcher tokens are
exactly the tokens before it, the passthrough tokens are exactly the tokens
strictly after it, that occurrence of the separator is consumed (it appears
in neither output: the launcher side contains no `--` at all, and the
reconstruction shows the consumed occurrence is in neither side), and
`launcherTokens ++ ["--"] ++ passthroughTokens` is the original sequence. -/
theorem splitter_double_dash (argv : List String) (h : ("--") ∈ argv) :
    split_at_unknown_flag_or_double_dash argv =
      (argv.takeWhile (fun t => t != "--"),
        (argv.dropWhile (fun t => t != "--")).drop 1) ∧
    ("--") ∉ (split_at_unknown_flag_or_double_dash argv).1 ∧
    (split_at_unknown_flag_or_double_dash argv).1 ++ ("--") ::
      (split_at_unknown_flag_or_double_dash argv).2 = argv := by
  have hs : split_at_unknown_flag_or_double_dash argv = splitAtDoubleDash argv := by
    simp [split_at_unknown_flag_or_double_dash, h]
  rw [hs]
  exact splitAtDoubleDash_spec argv h

/-- Witness for C1 at the concrete input `["a", "--", "b"]`. -/
theorem splitter_double_dash_witness :
    split_at_unknown_flag_or_double_dash ["a", "--", "b"] =
      ((["a", "--", "b"] : List String).takeWhile (fun t => t != "--"),
        ((["a", "--", "b"] : List String).dropWhile (fun t => t != "--")).drop 1) ∧
    ("--") ∉ (split_at_unknown_flag_or_double_dash ["a", "--", "b"]).1 ∧
    (split_at_unknown_flag_or_double_dash ["a", "--", "b"]).1 ++ ("--") ::
      (split_at_unknown_flag_or_double_dash ["a", "--", "b"]).2 = ["a", "--", "b"] :=
  splitter_double_dash (["a", "--", "b"]) (by decide)

/-- C3 counterexample: with a nonempty passthrough command and
foreground-interactive mode, the assembled invocation does not contain the
passthrough token — `run_sandbox` appends a fixed `/bin/bash` instead of
the `LaunchConfig` command, so the claim is false at this input. -/
theorem run_sandbox_cmd_counterexample :
    ("run-me") ∈ (Args.mk ("default") false false [] ["run-me"]).command ∧
    ¬ (("run-me") ∈ run_sandbox_cmd (Args.mk ("default") false false [] ["run-me"])
        (build_docker_args ("claude-sandbox-default") ("claude-sandbox-default")
          ("claude-sandbox-default-workspace") [] false none ("") ("xterm-256color"))) := by
  decide

/-- C3 amended: the passthrough command tokens are appended in neither mode;
the invocation ignores `Args.command` entirely, appending the fixed suffix
`IMAGE_NAME sleep infinity` in background-detached mode and the fixed suffix
`IMAGE_NAME /bin/bash` in foreground-interactive mode. -/
theorem run_sandbox_cmd_ignores_command (a : Args) (d c : List String) :
    run_sandbox_cmd { a with command := c } d = run_sandbox_cmd a d ∧
    run_sandbox_cmd a d =
      (if a.detach_mode then
        ["docker", "run", "-d"] ++ d ++ [IMAGE_NAME, "sleep", "infinity"]
      else ["docker", "run", "-it"] ++ d ++ [IMAGE_NAME, "/bin/bash"]) := by
  constructor <;> simp [run_sandbox_cmd]

/-- C7: the derived resource names are pure functions of the profile alone:
`volumeName = "claude-sandbox-" ++ profile`,
`workspaceVolumeName = volumeName ++ "-workspace"`,
`containerName = volumeName`, and any two `Args` values with the same
profile yield identical names. -/
theorem resource_names_pure (a b : Args) (h : a.profile = b.profile) :
    a.volume_name = "claude-sandbox-" ++ a.profile ∧
    a.workspace_volume_name = a.volume_name ++ "-workspace" ∧
    a.container_name = a.volume_name ∧
    a.volume_name = b.volume_name ∧
    a.workspace_volume_name = b.workspace_volume_name ∧
    a.container_name = b.container_name := by
  simp [Args.volume_name, Args.workspace_volume_name, Args.container_name, h]

/-- Witness for C7: two different `Args` with profile `"work"` produce the
spec's example names. -/
theorem resource_names_pure_witness :
    (Args.mk ("work") true true [8080] ["x"]).volume_name = "claude-sandbox-work" ∧
    (Args.mk ("work") true true [8080] ["x"]).workspace_volume_name =
      "claude-sandbox-work-workspace" ∧
    (Args.mk ("work") true true [8080] ["x"]).container_name = "claude-sandbox-work" ∧
    (Args.mk ("work") true true [8080] ["x"]).volume_name =
      (Args.mk ("work") false false [] []).volume_name := by
  have h := resource_names_pure (Args.mk ("work") true true [8080] ["x"])
    (Args.mk ("work") false false [] []) rfl
  exact ⟨by decide, by decide, by decide, h.2.2.2.1⟩

/-- C8: with the GitHub feature enabled, precondition validation succeeds
exactly when the SSH agent socket variable is set (to a nonempty string,
Python truthiness) and both git identity fields are present (nonempty);
the error list carries the specific message of every missing precondition —
all of them at once — and nothing else. -/
theorem validate_github_requirements_spec (sock : Option String) (cfg : GitConfig) :
    ((validate_github_requirements sock cfg).1 = true ↔
      (truthyOpt sock = true ∧ truthyOpt cfg.user_name = true ∧
        truthyOpt cfg.user_email = true)) ∧
    (sshAgentMsg ∈ (validate_github_requirements sock cfg).2 ↔
      truthyOpt sock = false) ∧
    (gitNameMsg ∈ (validate_github_requirements sock cfg).2 ↔
      truthyOpt cfg.user_name = false) ∧
    (gitEmailMsg ∈ (validate_github_requirements sock cfg).2 ↔
      truthyOpt cfg.user_email = false) ∧
    (validate_github_requirements sock cfg).2.length =
      ((if truthyOpt sock then 0 else 1) + (if truthyOpt cfg.user_name then 0 else 1) +
        (if truthyOpt cfg.user_email then 0 else 1)) := by
  cases h1 : truthyOpt sock <;> cases h2 : truthyOpt cfg.user_name <;>
    cases h3 : truthyOpt cfg.user_email <;>
      simp [validate_github_requirements, h1, h2, h3] <;> decide

/-- C10: if the external container-listing call exits non-zero,
`check_container_exists` returns `False` (the name-conflict check fails
open), so the orchestrator's conflict abort is not taken. -/
theorem check_container_exists_fails_open (container_name : String)
    (res : ProcResult) (h : res.returncode ≠ 0) :
    check_container_exists container_name res = false := by
  simp [check_container_exists, bne_iff_ne, h]

/-- Witness for C10: a failed listing whose output even names the container
still reports it absent. -/
theorem check_container_exists_fails_open_witness :
    ((1 : Int) ≠ 0) ∧
    check_container_exists ("claude-sandbox-default")
      (ProcResult.mk 1 ("claude-sandbox-default\n")) = false :=
  ⟨by decide, check_container_exists_fails_open (("claude-sandbox-default"))
    (ProcResult.mk 1 ("claude-sandbox-default\n")) (by decide)⟩

theorem scanSplit_hostPort (v : String) (rest2 : List String) (b : Bool) :
    scanSplit ("--host-port" :: v :: rest2) b =
      ("--host-port" :: v :: (scanSplit rest2 b).1, (scanSplit rest2 b).2) := by
  rw [scanSplit.eq_def]
  simp

theorem scanSplit_known (arg : String) (rest : List String) (b : Bool)
    (h1 : ¬ arg = "--host-port") (h2 : startsWithDash arg = true)
    (h3 : arg ∈ known_flags) :
    scanSplit (arg :: rest) b =
      (arg :: (scanSplit rest b).1, (scanSplit rest b).2) := by
  rw [scanSplit.eq_def]
  simp [h1, h2, h3]

theorem scanSplit_unknown (arg : String) (rest : List String) (b : Bool)
    (h1 : ¬ arg = "--host-port") (h2 : startsWithDash arg = true)
    (h3 : arg ∉ known_flags) :
    scanSplit (arg :: rest) b = ([], arg :: rest) := by
  rw [scanSplit.eq_def]
  simp [h1, h2, h3]

theorem scanSplit_second_positional (arg : String) (rest : List String)
    (h1 : ¬ arg = "--host-port") (h2 : ¬ startsWithDash arg = true) :
    scanSplit (arg :: rest) true = ([], arg :: rest) := by
  rw [scanSplit.eq_def]
  simp [h1, h2]

theorem scanSplit_first_positional (arg : String) (rest : List String)
    (h1 : ¬ arg = "--host-port") (h2 : ¬ startsWithDash arg = true) :
    scanSplit (arg :: rest) false =
      (arg :: (scanSplit rest true).1, (scanSplit rest true).2) := by
  rw [scanSplit.eq_def]
  simp [h1, h2]

theorem countPositionals_cons_hostPort (v : String) (rest2 : List String) :
    countPositionals ("--host-port" :: v :: rest2) = countPositionals rest2 := by
  rw [countPositionals.eq_def]
  simp

theorem countPositionals_cons_dash (arg : String) (rest : List String)
    (h1 : ¬ arg = "--host-port") (h2 : startsWithDash arg = true) :
    countPositionals (arg :: rest) = countPositionals rest := by
  rw [countPositionals.eq_def]
  simp [h1, h2]

theorem countPositionals_cons_positional (arg : String) (rest : List String)
    (h1 : ¬ arg = "--host-port") (h2 : ¬ startsWithDash arg = true) :
    countPositionals (arg :: rest) = 1 + countPositionals rest := by
  rw [countPositionals.eq_def]
  simp [h1, h2]

theorem countPos_scan (argv : List String) (b : Bool) :
    countPositionals (scanSplit argv b).1 ≤ (if b then 0 else 1) := by
  induction argv, b using scanSplit.induct with
  | case1 b => simp [scanSplit, countPositionals]
  | case2 b =>
    rw [scanSplit.eq_def]
    simp [countPositionals]
  | case3 b v rest2 l p heq ih =>
    rw [scanSplit_hostPort, countPositionals_cons_hostPort]
    exact ih
  | case4 arg rest b h1 h2 h3 l p heq ih =>
    rw [scanSplit_known arg rest b h1 h2 h3, countPositionals_cons_dash arg _ h1 h2]
    exact ih
  | case5 arg rest b h1 h2 h3 =>
    rw [scanSplit_unknown arg rest b h1 h2 h3]
    simp [countPositionals]
  | case6 arg rest h1 h2 =>
    rw [scanSplit_second_positional arg rest h1 h2]
    simp [countPositionals]
  | case7 arg rest b h1 h2 h3 l p heq ih =>
    have hb : b = false := by
      cases b
      · rfl
      · exact absurd rfl h3
    subst hb
    rw [scanSplit_first_positional arg rest h1 h2,
      countPositionals_cons_positional arg _ h1 h2]
    have h0 : countPositionals (scanSplit rest true).1 ≤ 0 := by simpa using ih
    have h4 : (if (false : Bool) = true then 0 else 1) = 1 := by simp
    rw [h4]
    omega

/-- C2 counterexample: on the input `["a", "b", "--"]` the splitter's
launcher tokens are `["a", "b"]`, which contain two positional tokens, so
the flag-parsing stage does receive more than one positional. -/
theorem splitter_positional_counterexample :
    ¬ (countPositionals
        (split_at_unknown_flag_or_double_dash ["a", "b", "--"]).1 ≤ 1) := by
  decide

/-- C2 amended: for every input token sequence not containing `--`, the
launcher tokens contain at most one positional token (a token not starting
with the flag-prefix character and not consumed as the value of
`--host-port`).  When `--` is present, everything before it is passed to the
flag-parsing stage unexamined and may contain several positionals. -/
theorem splitter_at_most_one_positional (argv : List String)
    (h : ("--") ∉ argv) :
    countPositionals (split_at_unknown_flag_or_double_dash argv).1 ≤ 1 := by
  have hs : split_at_unknown_flag_or_double_dash argv = scanSplit argv false := by
    simp [split_at_unknown_flag_or_double_dash, h]
  rw [hs]
  simpa using countPos_scan argv false

/-- Witness for C2 (amended) at the concrete input `["--github", "x"]`. -/
theorem splitter_at_most_one_positional_witness :
    (("--") ∉ (["--github", "x"] : List String)) ∧
    countPositionals
      (split_at_unknown_flag_or_double_dash ["--github", "x"]).1 ≤ 1 :=
  ⟨by decide, splitter_at_most_one_positional (["--github", "x"]) (by decide)⟩

/-- Launcher-token prefixes fully consumed by the scanning loop when started
with `profile_found = b`: known zero-argument flags, `--host-port` with its
(arbitrary) value token, and — only while no positional has been seen — one
positional token, after which the flag is set. -/
inductive ScanConsumes : Bool → List String → Prop
  | nil (b : Bool) : ScanConsumes b []
  | github (b : Bool) (rest : List String) :
      ScanConsumes b rest → ScanConsumes b (("--github") :: rest)
  | detach (b : Bool) (rest : List String) :
      ScanConsumes b rest → ScanConsumes b (("--detach") :: rest)
  | dshort (b : Bool) (rest : List String) :
      ScanConsumes b rest → ScanConsumes b (("-d") :: rest)
  | hostPort (b : Bool) (v : String) (rest : List String) :
      ScanConsumes b rest → ScanConsumes b (("--host-port") :: v :: rest)
  | positional (x : String) (rest : List String) :
      startsWithDash x = false → ScanConsumes true rest →
      ScanConsumes false (x :: rest)

theorem scanSplit_append (pre : List String) (b : Bool) (t : String)
    (suffix : List String) (hpre : ScanConsumes b pre)
    (ht : startsWithDash t = true) (hun : t ∉ known_flags) :
    scanSplit (pre ++ t :: suffix) b = (pre, t :: suffix) := by
  have htp : ¬ t = "--host-port" := by
    intro he
    exact hun (by rw [he]; decide)
  induction hpre with
  | nil b => simpa using scanSplit_unknown t suffix b htp ht hun
  | github b rest hr ih =>
    rw [List.cons_append, scanSplit_known _ _ _ (by decide) (by decide) (by decide), ih]
  | detach b rest hr ih =>
    rw [List.cons_append, scanSplit_known _ _ _ (by decide) (by decide) (by decide), ih]
  | dshort b rest hr ih =>
    rw [List.cons_append, scanSplit_known _ _ _ (by decide) (by decide) (by decide), ih]
  | hostPort b v rest hr ih =>
    rw [List.cons_append, List.cons_append, scanSplit_hostPort, ih]
  | positional x rest hx hr ih =>
    have hxp : ¬ x = "--host-port" := by
      intro he
      rw [he] at hx
      exact absurd hx (by decide)
    rw [List.cons_append,
      scanSplit_first_positional x _ hxp (by simp [hx]), ih]

/-- C5 counterexample: on `["a", "b", "-v"]` the first unrecognized
flag-prefixed token is `-v`, but the splitter's passthrough tokens are
`["b", "-v"]`, not `["-v"]` — the split happened earlier, at the second
positional. -/
theorem splitter_unknown_flag_counterexample :
    (split_at_unknown_flag_or_double_dash ["a", "b", "-v"]).2 = ["b", "-v"] ∧
    ¬ ((split_at_unknown_flag_or_double_dash ["a", "b", "-v"]).2 = ["-v"]) := by
  decide

/-- C5 amended: for every input without `--`, when the scan reaches an
unrecognized flag-prefixed token — i.e. every earlier token is a known
zero-argument flag, a `--host-port`/value pair, or a sole first positional —
the split point is that token: it and all remaining tokens become the
passthrough tokens.  (The scan equally splits at a second positional, so an
unknown flag is not always the split point.)  With an unknown flag before
any positional the profile defaults: `parse(["-v"])` yields
`command = ["-v"]` and `profile = "default"`. -/
theorem splitter_unknown_flag (pre suffix : List String) (t : String)
    (hpre : ScanConsumes false pre) (ht : startsWithDash t = true)
    (hun : t ∉ known_flags) (hdd : ("--") ∉ pre ++ t :: suffix) :
    split_at_unknown_flag_or_double_dash (pre ++ t :: suffix) =
      (pre, t :: suffix) ∧
    parse_args ["-v"] = Except.ok (Args.mk ("default") false false [] ["-v"]) := by
  constructor
  · have hs : split_at_unknown_flag_or_double_dash (pre ++ t :: suffix) =
        scanSplit (pre ++ t :: suffix) false := by
      simp [split_at_unknown_flag_or_double_dash, hdd]
    rw [hs]
    exact scanSplit_append pre false t suffix hpre ht hun
  · decide

/-- Witness for C5 at the spec's example `["work", "-v", "--verbose"]`. -/
theorem splitter_unknown_flag_witness :
    split_at_unknown_flag_or_double_dash ["work", "-v", "--verbose"] =
      (["work"], ["-v", "--verbose"]) ∧
    parse_args ["-v"] = Except.ok (Args.mk ("default") false false [] ["-v"]) :=
  splitter_unknown_flag (["work"]) (["--verbose"]) ("-v")
    (ScanConsumes.positional ("work") [] (by decide) (ScanConsumes.nil true))
    (by decide) (by decide) (by decide)

/-- C9: whenever `parse_args` succeeds the resulting profile is a nonempty
string; in particular an empty-string positional token is coerced to the
default profile `"default"` by the Python `or` in `parse_args`. -/
theorem parse_args_eq (argv : List String) :
    parse_args argv =
      (match parse_known_args (split_at_unknown_flag_or_double_dash argv).1 {} with
      | Except.error e => Except.error e
      | Except.ok (parsed, remaining) =>
        Except.ok
          { profile := pyOrStr (parsed.profile.getD ("default")) ("default")
            enable_github := parsed.enable_github
            detach_mode := parsed.detach_mode
            host_ports := parsed.host_ports
            command := remaining ++ (split_at_unknown_flag_or_double_dash argv).2 }) :=
  rfl

theorem parse_args_profile_nonempty (argv : List String) (a : Args)
    (h : parse_args argv = Except.ok a) :
    a.profile ≠ "" ∧ (argv = [""] → a.profile = "default") := by
  constructor
  · rw [parse_args_eq] at h
    cases hk : parse_known_args (split_at_unknown_flag_or_double_dash argv).1 {} with
    | error e =>
      rw [hk] at h
      exact absurd h (by simp)
    | ok pr =>
      rw [hk] at h
      rcases pr with ⟨parsed, remaining⟩
      simp only [Except.ok.injEq] at h
      rw [← h]
      simp only [pyOrStr]
      split
      · decide
      · next hne => exact hne
  · intro he
    subst he
    have hc : parse_args [""] = Except.ok (Args.mk ("default") false false [] []) := by
      decide
    rw [hc] at h
    simp only [Except.ok.injEq] at h
    rw [← h]

/-- Witness for C9 at the concrete input `[""]`. -/
theorem parse_args_profile_nonempty_witness :
    parse_args [""] = Except.ok (Args.mk ("default") false false [] []) ∧
    (Args.mk ("default") false false [] []).profile ≠ "" ∧
    ([""] = ([""] : List String) →
      (Args.mk ("default") false false [] []).profile = "default") :=
  ⟨by decide, parse_args_profile_nonempty ([""]) (Args.mk ("default") false false [] [])
    (by decide) |>.1, fun _ => rfl⟩

/-- The spec's strict reading of "a base-10 integer literal": a nonempty
string of decimal digits and nothing else. -/
def isBase10Literal (s : String) : Bool :=
  decide (s.data ≠ []) && s.data.all Char.isDigit

/-- The claim's acceptance class, read strictly: a base-10 integer literal
whose value lies in `[1, 65535]`. -/
def isValidPortLiteral (s : String) : Bool :=
  isBase10Literal s &&
    (match parseUDigits s.data with
     | some n => decide (1 ≤ n ∧ n ≤ 65535)
     | none => false)

/-- C4 counterexample: at the argument `" 80"` the claimed equivalence
"succeeds iff the string is a base-10 integer literal in `[1, 65535]`"
fails — `" 80"` is not a base-10 integer literal, yet Python `int`'s
whitespace stripping makes `_validate_port` accept it. -/
theorem validate_port_literal_counterexample :
    ¬ (((validate_port (" 80")).isOk = true) ↔
        isValidPortLiteral (" 80") = true) := by
  decide

/-- C4 amended: `_validate_port` accepts exactly the strings that Python
`int(...)` converts to a value in `[1, 65535]`; any other argument fails
with the `InvalidPort` message naming the offending literal (argparse turns
this into a fatal usage error, terminating with exit status 2, not 1).
Python `int` also accepts surrounding whitespace, one sign, and underscores
between digits, so `" 80"`, `"+80"` and `"8_0"` all pass; `"0"` and
`"65536"` both fail. -/
theorem validate_port_characterization (v : String) :
    ((validate_port v).isOk = true ↔
      ∃ p : Int, pythonIntOfString v = some p ∧ 1 ≤ p ∧ p ≤ 65535) ∧
    ((validate_port v).isOk = false →
      validate_port v = Except.error (portErrMsg v)) ∧
    portErrMsg v = "Invalid port \x27" ++ v ++ "\x27. Must be 1-65535." ∧
    validate_port ("0") = Except.error (portErrMsg ("0")) ∧
    validate_port ("65536") = Except.error (portErrMsg ("65536")) ∧
    validate_port (" 80") = Except.ok 80 ∧
    validate_port ("+80") = Except.ok 80 ∧
    validate_port ("8_0") = Except.ok 80 := by
  refine ⟨?_, ?_, rfl, by decide, by decide, by decide, by decide, by decide⟩
  · cases hq : pythonIntOfString v with
    | none => simp [validate_port, hq, Except.isOk, Except.toBool]
    | some q =>
      simp only [validate_port, hq]
      by_cases hc : q < 1 ∨ q > 65535
      · rw [if_pos hc]
        simp only [Except.isOk, Except.toBool, Option.some.injEq]
        constructor
        · intro hh
          exact absurd hh (by simp)
        · rintro ⟨p, rfl, h1, h2⟩
          omega
      · rw [if_neg hc]
        simp only [Except.isOk, Except.toBool, Option.some.injEq]
        constructor
        · intro _
          exact ⟨q, rfl, by omega, by omega⟩
        · intro _
          trivial
  · cases hq : pythonIntOfString v with
    | none => intro _; simp [validate_port, hq]
    | some q =>
      simp only [validate_port, hq]
      by_cases hc : q < 1 ∨ q > 65535
      · rw [if_pos hc]
        intro _
        rfl
      · rw [if_neg hc]
        intro hh
        simp [Except.isOk, Except.toBool] at hh

/-- Witness for C4 (amended) at the concrete argument `"0"`. -/
theorem validate_port_characterization_witness :
    ((validate_port ("0")).isOk = false) ∧
    validate_port ("0") = Except.error (portErrMsg ("0")) :=
  ⟨by decide, (validate_port_characterization ("0")).2.1 (by decide)⟩

theorem dropWhile_append_singleton (q : Char → Bool) (xs : List Char)
    (a : Char) (ha : q a = false) :
    (xs ++ [a]).dropWhile q = xs.dropWhile q ++ [a] := by
  rw [List.dropWhile_append]
  split
  · next hemp =>
    rw [List.isEmpty_iff] at hemp
    rw [hemp, List.dropWhile_cons, ha]
    simp
  · rfl

theorem pyStripChars_dash (t : List Char) :
    pyStripChars ('-' :: t) = '-' :: (t.reverse.dropWhile isPySpace).reverse := by
  unfold pyStripChars
  rw [List.dropWhile_cons]
  have hsp : isPySpace '-' = false := by decide
  rw [hsp]
  simp only [Bool.false_eq_true, if_false, List.reverse_cons]
  rw [dropWhile_append_singleton isPySpace t.reverse '-' hsp]
  simp

theorem pythonInt_pos_not_dash (v : String) (p : Int)
    (hv : pythonIntOfString v = some p) (hp : 1 ≤ p) :
    startsWithDash v = false := by
  cases hd : v.data with
  | nil => simp [startsWithDash, hd]
  | cons c t =>
    by_cases hc : c = '-'
    · subst hc
      exfalso
      unfold pythonIntOfString at hv
      rw [hd, pyStripChars_dash t] at hv
      have hv2 : (parseUDigits ((t.reverse.dropWhile isPySpace).reverse)).map
          (fun n => -(n : Int)) = some p := hv
      cases hpu : parseUDigits ((t.reverse.dropWhile isPySpace).reverse) with
      | none =>
        rw [hpu] at hv2
        exact Option.noConfusion hv2
      | some n =>
        rw [hpu] at hv2
        have hv3 : -((n : Int)) = p := Option.some.inj hv2
        rw [← hv3] at hp
        have hnn : (0 : Int) ≤ (n : Int) := Int.natCast_nonneg n
        omega
    · simp [startsWithDash, hd, hc]

/-- Two launcher tokens `--host-port v` for each requested port value, in
order (the shape of an input consisting only of repeated value-flags). -/
def hostPortPairs : List String → List String
  | [] => []
  | v :: vs => "--host-port" :: v :: hostPortPairs vs

/-- A string that Python `int` converts to a valid port value. -/
abbrev ValidPortArg (v : String) (p : Int) : Prop :=
  pythonIntOfString v = some p ∧ 1 ≤ p ∧ p ≤ 65535

theorem hostPortPairs_no_dd (vs : List String) (ps : List Int)
    (h : List.Forall₂ ValidPortArg vs ps) : ("--") ∉ hostPortPairs vs := by
  induction h with
  | nil => simp [hostPortPairs]
  | @cons a b l₁ l₂ hv _ ih =>
    simp only [hostPortPairs, List.mem_cons]
    rintro (h1 | h1 | h1)
    · exact absurd h1 (by decide)
    · have h2 := hv.1
      rw [← h1] at h2
      have h3 : pythonIntOfString ("--") = none := by decide
      rw [h3] at h2
      exact Option.noConfusion h2
    · exact ih h1

theorem scanSplit_hostPortPairs (vs : List String) (b : Bool) :
    scanSplit (hostPortPairs vs) b = (hostPortPairs vs, []) := by
  induction vs with
  | nil => simp [hostPortPairs, scanSplit]
  | cons v vs ih =>
    simp only [hostPortPairs]
    rw [scanSplit_hostPort, ih]

theorem parse_known_args_hostPortPairs (vs : List String) (ps : List Int)
    (h : List.Forall₂ ValidPortArg vs ps) (ns : ArgNamespace) :
    parse_known_args (hostPortPairs vs) ns =
      Except.ok ({ ns with host_ports := ns.host_ports ++ ps }, []) := by
  induction h generalizing ns with
  | nil => simp [hostPortPairs, parse_known_args]
  | @cons a b l₁ l₂ hv _ ih =>
    obtain ⟨hv1, hb1, hb2⟩ := hv
    have hsw : startsWithDash a = false := pythonInt_pos_not_dash a b hv1 hb1
    have hca : classify a = TokKind.positional := by
      unfold classify
      rw [hsw]
      simp
    have hvp : validate_port a = Except.ok b := by
      unfold validate_port
      rw [hv1]
      show (if b < 1 ∨ b > 65535 then Except.error (portErrMsg a)
        else Except.ok b) = Except.ok b
      rw [if_neg (by omega)]
    have step : parse_known_args ("--host-port" :: a :: hostPortPairs l₁) ns =
        parse_known_args (hostPortPairs l₁)
          { ns with host_ports := ns.host_ports ++ [b] } := by
      conv_lhs => whnf
      rw [hca]
      conv_lhs => whnf
      rw [hvp]
    simp only [hostPortPairs]
    rw [step, ih]
    simp [List.append_assoc]

/-- C6: the `--host-port` flag may repeat; an input consisting of the flag
with a valid port argument `n` times parses successfully with `hostPorts`
equal to the `n` port values in order of appearance, without deduplication,
and the spec's example `parse(["--host-port","8080","--host-port","3000"])`
yields `hostPorts = [8080, 3000]`. -/
theorem host_port_accumulates (vs : List String) (ps : List Int)
    (h : List.Forall₂ ValidPortArg vs ps) :
    parse_args (hostPortPairs vs) =
      Except.ok (Args.mk ("default") false false ps []) := by
  rw [parse_args_eq]
  have hdd := hostPortPairs_no_dd vs ps h
  have hsplit : split_at_unknown_flag_or_double_dash (hostPortPairs vs) =
      (hostPortPairs vs, []) := by
    rw [split_at_unknown_flag_or_double_dash, if_neg hdd]
    exact scanSplit_hostPortPairs vs false
  rw [hsplit, parse_known_args_hostPortPairs vs ps h {}]
  simp [pyOrStr]

/-- Witness for C6 at the spec's example, ports 8080 then 3000. -/
theorem host_port_accumulates_witness :
    List.Forall₂ ValidPortArg ["8080", "3000"] [8080, 3000] ∧
    parse_args ["--host-port", "8080", "--host-port", "3000"] =
      Except.ok (Args.mk ("default") false false [8080, 3000] []) := by
  have hf : List.Forall₂ ValidPortArg ["8080", "3000"] [8080, 3000] :=
    List.Forall₂.cons (by decide) (List.Forall₂.cons (by decide) List.Forall₂.nil)
  exact ⟨hf, host_port_accumulates (["8080", "3000"]) ([8080, 3000]) hf⟩

end ClaudeSandbox
